import Mathlib

/-!
# Verification of the incremental chat-summarization pipeline

Shallow embedding of the core logic of the repository (message chunking,
incremental summarizer merge step, LLM gateway retry loop, query agent
tool loop, message pagination) together with proofs of the specification
claims about them.

Python `int` values are modelled as `Int` (or `Nat` where the source can
only produce non-negative values), Python `None` as `Option.none`,
Python exceptions as `Except`/explicit result constructors, and the
external LLM as an oracle function supplied as a parameter.
-/

/-! ## Configuration constants (config.py) -/

/-- `CHUNK_SIZE = 40` (config.py). -/
def CHUNK_SIZE : Nat := 40

/-- `CONTEXT_MESSAGES_PER_PROBLEM = 3` (config.py). -/
def CONTEXT_MESSAGES_PER_PROBLEM : Nat := 3

/-! ## Data model (database.py) -/

/-- The `Message` dataclass of database.py.  `id` is `None` until the row is
stored; `telegram_msg_id` is the per-chat natural key. -/
structure Message where
  id : Option Nat
  chat_id : Int
  telegram_msg_id : Nat
  text : String
  author_tag : String
  author_name : String
  author_link : Option String
  reply_to_msg_id : Option Nat
  telegram_link : Option String
deriving DecidableEq

/-- The `Problem` dataclass of database.py. -/
structure Problem where
  id : Option Nat
  chat_id : Int
  title : String
  short_summary : String
  long_summary : String
  solution : String
  status : String
deriving DecidableEq

/-! ## Context windower: `chunk_messages` (summarizer.py)

```python
def chunk_messages(messages, chunk_size, overlap=5):
    if len(messages) <= chunk_size:
        return [messages]
    chunks = []
    step = chunk_size - overlap
    for i in range(0, len(messages), step):
        chunk = messages[i : i + chunk_size]
        chunks.append(chunk)
        if i + chunk_size >= len(messages):
            break
    return chunks
```

`range(0, n, step)` raises `ValueError` when `step == 0` and is empty when
`step < 0`; both cases are reproduced below.  The positive-step loop is
embedded with an explicit fuel argument (the loop advances `i` by
`step ≥ 1` each iteration, so fuel `len(messages)` is always enough). -/

/-- The `for i in range(0, messages.length, step)` loop body of
`chunk_messages` for a positive `step`, with fuel bounding the number of
remaining iterations. -/
def chunkLoop (messages : List α) (chunk_size step : Nat) : Nat → Nat → List (List α)
  | 0, _ => []
  | fuel + 1, i =>
    if i < messages.length then
      let c := (messages.drop i).take chunk_size
      if messages.length ≤ i + chunk_size then [c]
      else c :: chunkLoop messages chunk_size step fuel (i + step)
    else []

/-- `chunk_messages(messages, chunk_size, overlap)` (summarizer.py).
The `Except` layer records the `ValueError` that `range` raises when
`step = chunk_size - overlap` is zero; a negative step makes the `range`
empty, so the loop body never runs and the empty chunk list is returned. -/
def chunk_messages (messages : List α) (chunk_size overlap : Nat) :
    Except String (List (List α)) :=
  if messages.length ≤ chunk_size then .ok [messages]
  else if overlap = chunk_size then
    .error "ValueError: range() arg 3 must not be zero"
  else if chunk_size < overlap then .ok []
  else .ok (chunkLoop messages chunk_size (chunk_size - overlap) messages.length 0)

/-! ## LLM gateway retry loop: `call_llm` (llm_client.py)

```python
async def call_llm(prompt, system_prompt=None, max_retries=3):
    ...
    async with httpx.AsyncClient(timeout=60.0) as client:
        for attempt in range(max_retries):
            try:
                response = await client.post(...)
                response.raise_for_status()
                ...
                return result
            except (httpx.RemoteProtocolError, httpx.ConnectError,
                    httpx.ReadTimeout, httpx.HTTPStatusError) as exc:
                if attempt == max_retries - 1:
                    raise
                backoff = 2**attempt
                ...
                await asyncio.sleep(backoff)
```

One HTTP attempt is modelled by an oracle `Nat → HttpOutcome` giving the
outcome of each attempt number.  `raise_for_status` raises
`httpx.HTTPStatusError` for EVERY non-2xx status, so `statusError code`
covers 4xx as well as 5xx responses; `otherError` stands for any exception
outside the caught tuple (which the `except` clause does not intercept). -/

/-- Outcome of one HTTP attempt against the LLM provider. -/
inductive HttpOutcome where
  | success (body : String)
  | remoteProtocolError
  | connectError
  | readTimeout
  | statusError (code : Nat)
  | otherError (name : String)
deriving DecidableEq

/-- The exception classes caught by `call_llm`'s `except` clause:
`(httpx.RemoteProtocolError, httpx.ConnectError, httpx.ReadTimeout,
httpx.HTTPStatusError)`. -/
def isCaughtByCallLlm : HttpOutcome → Bool
  | .remoteProtocolError => true
  | .connectError => true
  | .readTimeout => true
  | .statusError _ => true
  | _ => false

/-- Result of a `call_llm` invocation: the returned body, a re-raised
exception, or the implicit `None` return when the loop runs zero times
(`max_retries = 0`).  Each constructor carries the list of backoff sleeps
that were performed before it, in order. -/
inductive LlmResult where
  | ok (body : String) (sleeps : List Nat)
  | raised (e : HttpOutcome) (sleeps : List Nat)
  | noneReturn (sleeps : List Nat)
deriving DecidableEq

/-- The `for attempt in range(max_retries)` loop of `call_llm`; the fuel
argument counts the iterations remaining in the `range`, and `attempt` is
the current loop index. -/
def call_llm_loop (oracle : Nat → HttpOutcome) (max_retries : Nat) :
    Nat → Nat → List Nat → LlmResult
  | 0, _, sleeps => .noneReturn sleeps
  | fuel + 1, attempt, sleeps =>
    match oracle attempt with
    | .success body => .ok body sleeps
    | e =>
      if isCaughtByCallLlm e then
        if attempt = max_retries - 1 then .raised e sleeps
        else call_llm_loop oracle max_retries fuel (attempt + 1) (sleeps ++ [2 ^ attempt])
      else .raised e sleeps

/-- `call_llm(prompt, system_prompt, max_retries)` (llm_client.py), with
the HTTP attempts abstracted by `oracle`. -/
def call_llm (oracle : Nat → HttpOutcome) (max_retries : Nat) : LlmResult :=
  call_llm_loop oracle max_retries max_retries 0 []

/-- Sleeps performed by a `call_llm` run. -/
def LlmResult.sleeps : LlmResult → List Nat
  | .ok _ s => s
  | .raised _ s => s
  | .noneReturn s => s

/-! ## Query agent (query_agent.py) -/

/-- `MAX_ITERATIONS = 10` (query_agent.py). -/
def MAX_ITERATIONS : Nat := 10

/-- `DEFAULT_PAGE_SIZE = 10` (query_agent.py). -/
def DEFAULT_PAGE_SIZE : Int := 10

/-- Python `a or b` for strings: `a` when non-empty (truthy), else `b`. -/
def pyOrStr (a b : String) : String := if a ≠ "" then a else b

/-- `status_map.get(p.status, p.status)` of query_agent.py: the Russian
rendering of a problem status, defaulting to the raw status. -/
def statusRu (s : String) : String :=
  if s = "solved" then "решено"
  else if s = "partial" then "есть информация"
  else if s = "unsolved" then "не решено"
  else s

/-- `format_problems_list(problems)` (query_agent.py). -/
def format_problems_list (problems : List Problem) : String :=
  if problems = [] then "Проблем пока нет."
  else
    String.intercalate "\n" (problems.enum.flatMap (fun ip =>
      ("[" ++ toString ip.1 ++ "] " ++ ip.2.title ++ " [" ++ statusRu ip.2.status ++ "]") ::
      (if ip.2.short_summary ≠ "" then ["    " ++ ip.2.short_summary] else [])))

/-- `format_problem_details(problems, indices)` (query_agent.py).
Indices are Python ints supplied by the LLM, hence `Int`. -/
def format_problem_details (problems : List Problem) (indices : List Int) : String :=
  String.intercalate "\n\n" (indices.map (fun idx =>
    if idx < 0 ∨ (problems.length : Int) ≤ idx then
      "[" ++ toString idx ++ "] Проблема не найдена"
    else
      match problems[idx.toNat]? with
      | none => "[" ++ toString idx ++ "] Проблема не найдена"
      | some p =>
        String.intercalate "\n" (
          ["[" ++ toString idx ++ "] " ++ p.title,
           "Статус: " ++ statusRu p.status] ++
          (if p.long_summary ≠ "" then ["Описание: " ++ p.long_summary] else []) ++
          (if p.solution ≠ "" then ["Решение: " ++ p.solution] else []))))

/-- One bound of a Python slice `l[a:b]`: negative indices count from the
end (clamped at 0), non-negative ones are clamped at the length. -/
def pySliceIdx (n : Int) (len : Nat) : Nat :=
  if n < 0 then (n + len).toNat else min n.toNat len

/-- Python list slice `l[a:b]` (step 1). -/
def pySlice (l : List α) (a b : Int) : List α :=
  (l.take (pySliceIdx b l.length)).drop (pySliceIdx a l.length)

/-- `total_pages = (total + page_size - 1) // page_size if total > 0 else 1`
(query_agent.py, `format_messages_page`).  Python `//` is floor division,
i.e. `Int.fdiv`.  (For `page_size = 0` Python would raise
`ZeroDivisionError` while `Int.fdiv _ 0 = 0`; the theorems below therefore
assume a positive page size.) -/
def totalPages (total : Nat) (page_size : Int) : Int :=
  if 0 < total then Int.fdiv ((total : Int) + page_size - 1) page_size else 1

/-- `format_messages_page(messages, page, page_size)` (query_agent.py). -/
def format_messages_page (messages : List Message) (page page_size : Int) : String :=
  let total : Nat := messages.length
  let total_pages : Int := totalPages total page_size
  let page : Int := if page < 1 then 1 else page
  if total_pages < page then
    "Страница " ++ toString page ++ " не существует. Всего страниц: " ++ toString total_pages
  else
    let start : Int := (page - 1) * page_size
    let stop : Int := min (start + page_size) (total : Int)
    let page_messages := pySlice messages start stop
    String.intercalate "\n" (
      ("Сообщения (страница " ++ toString page ++ "/" ++ toString total_pages ++
        ", всего " ++ toString total ++ "):") ::
      page_messages.map (fun m =>
        "- " ++ pyOrStr m.author_name (pyOrStr m.author_tag "Unknown") ++ ": " ++
          (if 500 < m.text.length then m.text.take 500 ++ "..." else m.text)))

/-- Parsed `arguments` payload of a tool call.  `json.loads` failure defaults
to the empty dict, i.e. all fields `none`. -/
structure ToolArgs where
  problem_indices : Option (List Int) := none
  problem_index : Option Int := none
  page : Option Int := none
  page_size : Option Int := none
deriving DecidableEq

/-- One tool call requested by the LLM (`tool_call["id"]`,
`tool_call["function"]["name"]`, decoded `arguments`). -/
structure ToolCall where
  id : String
  name : String
  args : ToolArgs
deriving DecidableEq

/-- One entry of the running `messages` conversation of `run_query_agent`. -/
inductive ConvMsg where
  | system (content : String)
  | user (content : String)
  | assistant (content : Option String) (tool_calls : Option (List ToolCall))
  | tool (tool_call_id : String) (content : String)
deriving DecidableEq

/-- Outcome of one `call_llm_with_tools` invocation as seen by
`run_query_agent`: either an exception (caught by its `try`/`except`) or the
assistant message of the first choice. -/
inductive LlmToolsOutcome where
  | failure (err : String)
  | response (content : Option String) (tool_calls : Option (List ToolCall))
deriving DecidableEq

/-- The store data `run_query_agent` reads: the chat's problems
(`get_problems_by_chat`, ordered), the linked messages of each problem id
(`get_messages_for_problem`), and the chat overview (`get_chat_meta`). -/
structure AgentEnv where
  problems : List Problem
  messagesFor : Nat → List Message
  overview : String

/-- Return value of `run_query_agent`: every constructor is a normal string
return in the Python source (the function raises no exception itself);
the constructor records which return site produced the string. -/
inductive AgentOutcome where
  | noProblems (text : String)
  | llmError (text : String)
  | finalAnswer (text : String)
  | exhausted (text : String)
deriving DecidableEq

/-- The `SYSTEM_PROMPT` of query_agent.py. -/
def SYSTEM_PROMPT : String :=
  "Ты — поисковый агент. Твоя задача — найти ответ на вопрос ТОЛЬКО на основе данных из чата.\n\nСТРОГИЕ ПРАВИЛА:\n1. НИКОГДА не придумывай информацию. Отвечай ТОЛЬКО тем, что нашёл в сообщениях.\n2. Если информации нет в сообщениях — честно скажи \"Информация не найдена в чате\".\n3. НЕ используй свои знания. Только данные из чата.\n4. Цитируй или пересказывай найденное, не додумывай.\n5. Отвечай простым текстом без markdown (без *, **, `, # и т.д.)\n6. В конце ответа ОБЯЗАТЕЛЬНО добавь ссылки на проблемы, из которых взята информация, в формате: /problem_0, /problem_3\n\nTools:\n- get_problems_details: подробности о проблемах по индексам\n- get_problem_messages: сообщения проблемы (с пагинацией)\n\nАлгоритм:\n1. Изучи список проблем\n2. Выбери релевантные проблемы\n3. Запроси их детали через get_problems_details\n4. ОБЯЗАТЕЛЬНО запроси сообщения через get_problem_messages\n5. Найди в сообщениях конкретный ответ\n6. Ответь ТОЛЬКО на основе найденного\n7. Добавь в конце строку \"Источники: /problem_X, /problem_Y\" со ссылками на использованные проблемы\n\nЕсли в сообщениях нет ответа — так и скажи. Не выдумывай."

/-- The `initial_context` user message built by `run_query_agent`. -/
def initial_context (question overview : String) (problems : List Problem) : String :=
  "Вопрос пользователя: " ++ question ++
  "\n\nОбзор чата: " ++ (if overview ≠ "" then overview else "Нет общего описания") ++
  "\n\nСписок проблем:\n" ++ format_problems_list problems ++
  "\n\nИзучи список и определи, какие проблемы могут содержать ответ.\nИспользуй tools чтобы получить детали или сообщения."

/-- Execution of one requested tool call inside `run_query_agent`'s tool
loop: the `if func_name == ... / elif ... / else` dispatch producing the
textual tool result.  Unknown tool names yield a marker string; no path
raises. -/
def executeToolCall (env : AgentEnv) (tc : ToolCall) : String :=
  if tc.name = "get_problems_details" then
    format_problem_details env.problems (tc.args.problem_indices.getD [])
  else if tc.name = "get_problem_messages" then
    let idx := tc.args.problem_index.getD 0
    let page := tc.args.page.getD 1
    let page_size := tc.args.page_size.getD DEFAULT_PAGE_SIZE
    if idx < 0 ∨ (env.problems.length : Int) ≤ idx then
      "Проблема " ++ toString idx ++ " не найдена"
    else
      match env.problems[idx.toNat]? with
      | none => "Проблема " ++ toString idx ++ " не найдена"
      | some p => format_messages_page (env.messagesFor (p.id.getD 0)) page page_size
  else
    "Неизвестный tool: " ++ tc.name

/-- The `for iteration in range(MAX_ITERATIONS)` loop of `run_query_agent`.
`fuel` is the number of loop iterations remaining and `k` the current
iteration index (used to consult the LLM oracle); falling off the end of
the loop returns the fixed exhaustion message. -/
def runAgentLoop (env : AgentEnv) (oracle : Nat → LlmToolsOutcome) :
    Nat → Nat → List ConvMsg → AgentOutcome
  | 0, _, _ =>
    .exhausted "Не удалось найти ответ за отведённое количество шагов. Попробуйте переформулировать вопрос."
  | fuel + 1, k, msgs =>
    match oracle k with
    | .failure e => .llmError ("Ошибка при обращении к LLM: " ++ e)
    | .response content tool_calls =>
      let msgs1 := msgs ++ [ConvMsg.assistant content tool_calls]
      match tool_calls with
      | none => .finalAnswer (content.getD "Не удалось найти ответ.")
      | some [] => .finalAnswer (content.getD "Не удалось найти ответ.")
      | some tcs =>
        runAgentLoop env oracle fuel (k + 1)
          (msgs1 ++ tcs.map (fun tc => ConvMsg.tool tc.id (executeToolCall env tc)))

/-- `run_query_agent(chat_id, question, on_status)` (query_agent.py), with
the LLM calls abstracted by `oracle` and the store reads by `env`.
`on_status` is a best-effort side-effecting callback and has no bearing on
the returned value. -/
def run_query_agent (env : AgentEnv) (oracle : Nat → LlmToolsOutcome)
    (question : String) : AgentOutcome :=
  if env.problems = [] then
    .noProblems "В чате пока нет проблем. Используйте /summarize для анализа сообщений."
  else
    runAgentLoop env oracle MAX_ITERATIONS 0
      [ConvMsg.system SYSTEM_PROMPT,
       ConvMsg.user (initial_context question env.overview env.problems)]

/-! ## Message/Problem store (database.py)

A single chat's slice of the SQLite store: the `problems` table rows in
insertion (= id) order, the autoincrement counter, the
`problem_messages` link table, and the chat-meta record. -/

/-- The store state used by `analyze_and_update`.  `nextId` models the
`AUTOINCREMENT` id counter of the `problems` table (SQLite row ids start
at 1). -/
structure Store where
  problems : List Problem
  nextId : Nat
  links : List (Nat × Option Nat)
  overview : String
  decisions : List String
  key_points : List String
deriving DecidableEq

/-- Python truthiness of an optional integer id (`if problem.id:` /
`if not problem_id:`): `None` and `0` are falsy. -/
def pyTruthyId : Option Nat → Bool
  | none => false
  | some i => i != 0

/-- `save_problem(problem)` (database.py): `UPDATE` of the row with the
problem's id when the id is truthy, otherwise `INSERT` returning the fresh
id.  Returns the updated store and the row id. -/
def save_problem (store : Store) (p : Problem) : Store × Nat :=
  if pyTruthyId p.id then
    ({ store with
        problems := store.problems.map (fun q =>
          if q.id = p.id then
            { q with title := p.title, short_summary := p.short_summary,
                     long_summary := p.long_summary, solution := p.solution,
                     status := p.status }
          else q) },
     p.id.getD 0)
  else
    ({ store with
        problems := store.problems ++ [{ p with id := some store.nextId }],
        nextId := store.nextId + 1 },
     store.nextId)

/-- `get_problem_by_id(problem_id)` (database.py):
`SELECT * FROM problems WHERE id = ?`. -/
def get_problem_by_id (store : Store) (pid : Nat) : Option Problem :=
  store.problems.find? (fun p => p.id == some pid)

/-- `get_problems_by_chat(chat_id)` (database.py):
`SELECT * FROM problems WHERE chat_id = ? ORDER BY id ASC` (insertion
order coincides with ascending id order). -/
def get_problems_by_chat (store : Store) (chat_id : Int) : List Problem :=
  store.problems.filter (fun p => p.chat_id == chat_id)

/-- `link_messages_to_problem(message_ids, problem_id)` (database.py):
`INSERT OR IGNORE` of each `(problem_id, message_id)` pair. -/
def link_messages_to_problem (store : Store) (message_ids : List (Option Nat))
    (problem_id : Nat) : Store :=
  { store with
      links := message_ids.foldl (fun ls mid =>
        if (problem_id, mid) ∈ ls then ls else ls ++ [(problem_id, mid)]) store.links }

/-- `save_chat_meta(chat_id, overview, decisions, key_points)` (database.py). -/
def save_chat_meta (store : Store) (overview : String) (decisions key_points : List String) :
    Store :=
  { store with overview := overview, decisions := decisions, key_points := key_points }

/-! ## Incremental summarizer: `analyze_and_update` (summarizer.py)

The per-chunk LLM extraction call (`call_llm` + `parse_llm_json`) is
abstracted by an oracle from the chunk index to either a raised error
(network failure or `json.JSONDecodeError`, both of which propagate out of
`analyze_and_update`) or the decoded result payload. -/

/-- One `new_problems[]` entry of the decoded LLM payload.  `title` is a
required key; the others are read with `.get` defaults. -/
structure NewProblem where
  title : String
  short_summary : String := ""
  long_summary : String := ""
  solution : String := ""
  status : Option String := none
  message_ids : List Nat := []
deriving DecidableEq

/-- One `problem_updates[]` entry of the decoded LLM payload. -/
structure ProblemUpdate where
  problem_id : Option Nat := none
  new_status : Option String := none
  solution : String := ""
  message_ids : List Nat := []
deriving DecidableEq

/-- The decoded JSON payload of one extraction call. -/
structure AnalysisResult where
  new_problems : List NewProblem := []
  problem_updates : List ProblemUpdate := []
  overview_update : Option String := none
  new_decisions : List String := []
  new_key_points : List String := []
deriving DecidableEq

/-- `list(set(a + b))` of summarizer.py's meta merge, modelled as an
order-preserving deduplication (Python's set iteration order is
unspecified; no claim depends on the order). -/
def pySetUnion (a b : List String) : List String := (a ++ b).dedup

/-- Lookup in `msg_id_map = {msg.telegram_msg_id: msg.id for msg in chunk}`:
for a duplicated telegram id the last comprehension entry wins. -/
def msg_id_map (chunk : List Message) (mid : Nat) : Option (Option Nat) :=
  ((chunk.filter (fun m => m.telegram_msg_id == mid)).getLast?).map (fun m => m.id)

/-- The in-memory state threaded through the chunk loop of
`analyze_and_update`: the store, the `existing_problems` list, and the
two `stats` counters. -/
structure AnalyzeState where
  store : Store
  existing_problems : List Problem
  new_count : Nat
  upd_count : Nat
deriving DecidableEq

/-- The `Problem(...)` literal built for one `new_problems[]` entry
(summarizer.py lines 349-357): `status` defaults to `"unsolved"`, the id is
unset until `save_problem` assigns one. -/
def newProblemRecord (chat_id : Int) (np : NewProblem) : Problem :=
  { id := none, chat_id := chat_id, title := np.title,
    short_summary := np.short_summary, long_summary := np.long_summary,
    solution := np.solution, status := np.status.getD "unsolved" }

/-- Processing of one `new_problems[]` entry (summarizer.py lines 348-372):
create the problem, bump the `new_problems` counter, link the referenced
chunk messages, and append the saved problem to `existing_problems`. -/
def processNewProblem (chat_id : Int) (chunk : List Message)
    (st : AnalyzeState) (np : NewProblem) : AnalyzeState :=
  let problem : Problem := newProblemRecord chat_id np
  let sp := save_problem st.store problem
  let msg_db_ids := np.message_ids.filterMap (msg_id_map chunk)
  let store2 := if msg_db_ids ≠ [] then link_messages_to_problem sp.1 msg_db_ids sp.2 else sp.1
  { st with
      store := store2,
      new_count := st.new_count + 1,
      existing_problems := st.existing_problems ++ [{ problem with id := some sp.2 }] }

/-- The status/solution mutation of one `problem_updates[]` entry
(summarizer.py lines 385-394): apply `new_status` when it is truthy and
differs from the current status, then `solution` when it is truthy and
differs from the current solution; the Boolean is the resulting
`need_save` flag. -/
def applyUpdateFields (problem : Problem) (upd : ProblemUpdate) : Problem × Bool :=
  let sc :=
    match upd.new_status with
    | some s =>
      if s ≠ "" ∧ s ≠ problem.status then ({ problem with status := s }, true)
      else (problem, false)
    | none => (problem, false)
  if upd.solution ≠ "" ∧ upd.solution ≠ problem.solution then
    ({ sc.1 with solution := upd.solution }, true)
  else sc

/-- Processing of one `problem_updates[]` entry (summarizer.py lines
375-407): skip silently on a falsy or unresolvable id; otherwise apply
`new_status`/`solution` when truthy and different from the current value,
bump the `updated_problems` counter at most once, and link the referenced
chunk messages. -/
def processUpdate (chunk : List Message) (st : AnalyzeState)
    (upd : ProblemUpdate) : AnalyzeState :=
  if pyTruthyId upd.problem_id = false then st
  else
    let pid := upd.problem_id.getD 0
    match get_problem_by_id st.store pid with
    | none => st
    | some problem =>
      let sc := applyUpdateFields problem upd
      let store1 := if sc.2 then (save_problem st.store sc.1).1 else st.store
      let updc := if sc.2 then st.upd_count + 1 else st.upd_count
      let msg_db_ids := upd.message_ids.filterMap (msg_id_map chunk)
      let store2 :=
        if msg_db_ids ≠ [] then link_messages_to_problem store1 msg_db_ids pid else store1
      { st with store := store2, upd_count := updc }

/-- Merging of one chunk's decoded LLM payload into the state (the body of
the `for i, chunk in enumerate(chunks)` loop after the extraction call):
new problems, then problem updates, then the chat-meta merge, persisted
immediately via `save_chat_meta`. -/
def processChunk (chat_id : Int) (st : AnalyzeState) (chunk : List Message)
    (res : AnalysisResult) : AnalyzeState :=
  let st1 := res.new_problems.foldl (processNewProblem chat_id chunk) st
  let st2 := res.problem_updates.foldl (processUpdate chunk) st1
  let overview :=
    match res.overview_update with
    | some s => if s ≠ "" then s else st2.store.overview
    | none => st2.store.overview
  let decisions := pySetUnion st2.store.decisions res.new_decisions
  let key_points := pySetUnion st2.store.key_points res.new_key_points
  { st2 with store := save_chat_meta st2.store overview decisions key_points }

/-- The chunk loop of `analyze_and_update`: chunks are processed strictly in
order; a failing extraction (network error after retries, or
`parse_llm_json` failure) aborts the whole pass, leaving the merges of the
earlier chunks committed. -/
def analyzeGo (chat_id : Int) (oracle : Nat → Except String AnalysisResult) :
    Nat → AnalyzeState → List (List Message) → Except String AnalyzeState
  | _, st, [] => .ok st
  | i, st, chunk :: rest =>
    match oracle i with
    | .error e => .error e
    | .ok res => analyzeGo chat_id oracle (i + 1) (processChunk chat_id st chunk res) rest

/-- `analyze_and_update(chat_id, new_messages, on_progress)` (summarizer.py),
returning the `{"new_problems": _, "updated_problems": _}` counters, with
the per-chunk extraction calls abstracted by `oracle`.  `on_progress` is a
best-effort callback with no bearing on the result. -/
def analyze_and_update (oracle : Nat → Except String AnalysisResult)
    (store : Store) (chat_id : Int) (new_messages : List Message) :
    Except String (Nat × Nat) :=
  if new_messages = [] then .ok (0, 0)
  else
    match chunk_messages new_messages CHUNK_SIZE 5 with
    | .error e => .error e
    | .ok chunks =>
      match analyzeGo chat_id oracle 0
          { store := store,
            existing_problems := get_problems_by_chat store chat_id,
            new_count := 0, upd_count := 0 } chunks with
      | .error e => .error e
      | .ok st => .ok (st.new_count, st.upd_count)

/-- A problem id being visible to the next chunk: some problem carrying the
id is in the in-memory `existing_problems` list (from which the next
chunk's problem context is rendered), and `get_problem_by_id` resolves the
id in the store (as the next chunk's merge step does). -/
def problemVisible (st : AnalyzeState) (pid : Nat) : Prop :=
  (∃ p ∈ st.existing_problems, p.id = some pid) ∧
  (get_problem_by_id st.store pid).isSome = true

/-! ## Sample data for concrete evaluations -/

/-- Twelve stored messages linked to one problem. -/
def sampleMessages12 : List Message :=
  List.range 12 |>.map (fun i =>
    { id := some (i + 1), chat_id := 7, telegram_msg_id := i + 100, text := "t",
      author_tag := "a", author_name := "n", author_link := none,
      reply_to_msg_id := none, telegram_link := none })

/-- A stored problem with id 1. -/
def sampleProblem : Problem :=
  { id := some 1, chat_id := 7, title := "t", short_summary := "s",
    long_summary := "l", solution := "", status := "unsolved" }

/-- A store holding `sampleProblem`. -/
def sampleStore : Store :=
  { problems := [sampleProblem], nextId := 2, links := [],
    overview := "", decisions := [], key_points := [] }

/-- The analyzer state over `sampleStore`. -/
def sampleAnalyzeState : AnalyzeState :=
  { store := sampleStore, existing_problems := [sampleProblem],
    new_count := 0, upd_count := 0 }

/-- A `problem_updates[]` entry that repeats the problem's current status
and solution. -/
def sampleUpdate : ProblemUpdate :=
  { problem_id := some 1, new_status := some "unsolved", solution := "",
    message_ids := [] }

/-- An agent environment with a single problem. -/
def sampleEnv : AgentEnv :=
  { problems := [sampleProblem], messagesFor := fun _ => sampleMessages12,
    overview := "" }

/-- A tool call naming no known tool. -/
def sampleUnknownToolCall : ToolCall :=
  { id := "call_1", name := "frobnicate", args := {} }

/-- A tool call for `get_problems_details` with no indices. -/
def sampleDetailsToolCall : ToolCall :=
  { id := "call_2", name := "get_problems_details", args := {} }

/-- A stub LLM that answers every agent iteration with one tool call and
never a final answer. -/
def stubToolOracle : Nat → LlmToolsOutcome :=
  fun _ => .response none (some [sampleDetailsToolCall])

/-- A stub LLM that answers every agent iteration with one unknown tool
call. -/
def stubUnknownOracle : Nat → LlmToolsOutcome :=
  fun _ => .response none (some [sampleUnknownToolCall])

/-- A stub gateway whose every call fails (retries exhausted). -/
def stubFailOracle : Nat → LlmToolsOutcome :=
  fun _ => .failure "connection error"

/-- A stub extraction gateway whose every call fails (retries exhausted or
malformed JSON). -/
def stubAnalysisFailOracle : Nat → Except String AnalysisResult :=
  fun _ => .error "connection error"

/-! ## Helper lemmas -/

/-- Unfolding of one iteration of `chunkLoop`. -/
theorem chunkLoop_succ (messages : List α) (chunk_size step fuel i : Nat) :
    chunkLoop messages chunk_size step (fuel + 1) i =
      if i < messages.length then
        (if messages.length ≤ i + chunk_size then [(messages.drop i).take chunk_size]
         else (messages.drop i).take chunk_size ::
           chunkLoop messages chunk_size step fuel (i + step))
      else [] := rfl

/-- A list element sits in the slice `l[i : i+cs]` covering its index. -/
theorem mem_drop_take (l : List α) (i cs k : Nat) (hk : k < l.length)
    (hik : i ≤ k) (hkc : k < i + cs) :
    l[k] ∈ (l.drop i).take cs := by
  have h1 : k - i < cs := by omega
  have h2 : ((l.drop i).take cs)[k - i]? = some l[k] := by
    rw [List.getElem?_take, if_pos h1, List.getElem?_drop,
      show i + (k - i) = k by omega]
    exact List.getElem?_eq_getElem hk
  exact List.getElem?_mem h2

/-- Coverage: with positive step and enough fuel, every index from `i` on
is covered by some chunk produced by `chunkLoop`. -/
theorem chunkLoop_cover (l : List α) (cs step : Nat) (hstep : 0 < step)
    (hsc : step ≤ cs) :
    ∀ fuel i k (hk : k < l.length), i ≤ k → l.length ≤ i + fuel →
      ∃ c ∈ chunkLoop l cs step fuel i, l[k] ∈ c := by
  intro fuel
  induction fuel with
  | zero => intro i k hk hik hfuel; omega
  | succ fuel ih =>
    intro i k hk hik hfuel
    have hi : i < l.length := by omega
    rw [chunkLoop_succ, if_pos hi]
    by_cases hlast : l.length ≤ i + cs
    · rw [if_pos hlast]
      exact ⟨_, List.mem_singleton_self _, mem_drop_take l i cs k hk hik (by omega)⟩
    · rw [if_neg hlast]
      by_cases hkc : k < i + cs
      · exact ⟨_, List.mem_cons_self _ _, mem_drop_take l i cs k hk hik hkc⟩
      · obtain ⟨c, hc, hm⟩ := ih (i + step) k hk (by omega) (by omega)
        exact ⟨c, List.mem_cons_of_mem _ hc, hm⟩

/-- The overlap block shared by two consecutive slices: `l[i+step : i+cs]`
is a suffix of `l[i : i+cs]` and a prefix of `l[i+step : i+step+cs]`. -/
theorem slice_overlap (l : List α) (cs step i : Nat) (hsc : step ≤ cs)
    (hin : i + cs ≤ l.length) :
    ((l.drop (i + step)).take (cs - step)).length = cs - step ∧
    (l.drop (i + step)).take (cs - step) <:+ (l.drop i).take cs ∧
    (l.drop (i + step)).take (cs - step) <+: (l.drop (i + step)).take cs := by
  refine ⟨?_, ?_, ?_⟩
  · rw [List.length_take, List.length_drop]; omega
  · refine ⟨(l.drop i).take step, ?_⟩
    rw [← List.drop_drop, ← List.take_add, show step + (cs - step) = cs by omega]
  · have h3 : ((l.drop (i + step)).take cs).take (cs - step) =
        (l.drop (i + step)).take (cs - step) := by
      rw [List.take_take, Nat.min_eq_left (by omega)]
    exact h3 ▸ List.take_prefix _ _

/-- Overlap: adjacent chunks produced by `chunkLoop` share a block of
`cs - step` elements, a suffix of the earlier chunk and a prefix of the
later one. -/
theorem chunkLoop_adjacent (l : List α) (cs step : Nat) (hstep : 0 < step)
    (hsc : step ≤ cs) :
    ∀ fuel i j, l.length ≤ i + fuel →
      ∀ cj cj1, (chunkLoop l cs step fuel i)[j]? = some cj →
        (chunkLoop l cs step fuel i)[j + 1]? = some cj1 →
        ∃ s : List α, s.length = cs - step ∧ s <:+ cj ∧ s <+: cj1 := by
  intro fuel
  induction fuel with
  | zero => intro i j _ cj cj1 hcj _; simp [chunkLoop] at hcj
  | succ fuel ih =>
    intro i j hfuel cj cj1 hcj hcj1
    by_cases hi : i < l.length
    · rw [chunkLoop_succ, if_pos hi] at hcj hcj1
      by_cases hlast : l.length ≤ i + cs
      · rw [if_pos hlast] at hcj1
        rcases j with _ | j' <;> simp at hcj1
      · rw [if_neg hlast] at hcj hcj1
        push_neg at hlast
        cases j with
        | zero =>
          rw [List.getElem?_cons_zero] at hcj
          rw [List.getElem?_cons_succ] at hcj1
          have hfurther : i + step < l.length := by omega
          obtain ⟨fuel', rfl⟩ : ∃ f, fuel = f + 1 := ⟨fuel - 1, by omega⟩
          rw [chunkLoop_succ, if_pos hfurther] at hcj1
          have hhead : cj1 = (l.drop (i + step)).take cs := by
            by_cases h2 : l.length ≤ i + step + cs
            · rw [if_pos h2, List.getElem?_cons_zero] at hcj1
              exact (Option.some_injective _ hcj1).symm
            · rw [if_neg h2, List.getElem?_cons_zero] at hcj1
              exact (Option.some_injective _ hcj1).symm
          obtain ⟨hlen, hsuf, hpre⟩ :=
            slice_overlap l cs step i hsc (by omega)
          refine ⟨(l.drop (i + step)).take (cs - step), hlen, ?_, ?_⟩
          · rw [← Option.some_injective _ hcj]; exact hsuf
          · rw [hhead]; exact hpre
        | succ j' =>
          rw [List.getElem?_cons_succ] at hcj hcj1
          exact ih (i + step) j' (by omega) cj cj1 hcj hcj1
    · rw [chunkLoop_succ, if_neg hi] at hcj
      simp at hcj

/-! ## Claim C1 -/

/-- Claim C1, counterexample: for 45 messages with `chunk_size=20`,
`overlap=5`, the chunk sizes are `[20, 20, 15]`, not `[20, 20, 10]` as the
claim states (the claim's own boundaries `[0:20]`, `[15:35]`, `[30:45]`
give a final chunk of 15 elements). -/
theorem C1_sizes_counterexample :
    (chunk_messages (List.range 45) 20 5).map (fun cs => cs.map List.length) =
      .ok [20, 20, 15] ∧ ([20, 20, 15] : List Nat) ≠ [20, 20, 10] :=
  ⟨rfl, by decide⟩

/-- Claim C1 (amended): for every 45-message input, `chunk_messages` with
`chunk_size=20`, `overlap=5` produces exactly the 3 chunks
`messages[0:20]`, `messages[15:35]`, `messages[30:45]`, of sizes
`[20, 20, 15]`. -/
theorem C1_chunk_boundaries {α : Type} (messages : List α)
    (h : messages.length = 45) :
    chunk_messages messages 20 5 =
      .ok [messages.take 20, (messages.drop 15).take 20, messages.drop 30] ∧
    [(messages.take 20).length, ((messages.drop 15).take 20).length,
      (messages.drop 30).length] = [20, 20, 15] := by
  constructor
  · have hcm : chunk_messages messages 20 5 =
        .ok (chunkLoop messages 20 15 messages.length 0) := by
      unfold chunk_messages
      rw [if_neg (by omega), if_neg (by norm_num), if_neg (by norm_num)]
    rw [hcm, h, show (45 : Nat) = 44 + 1 from rfl, chunkLoop_succ,
      if_pos (by omega), if_neg (by omega),
      show (44 : Nat) = 43 + 1 from rfl, chunkLoop_succ,
      if_pos (by omega), if_neg (by omega),
      show (43 : Nat) = 42 + 1 from rfl, chunkLoop_succ,
      if_pos (by omega), if_pos (by omega)]
    have h30 : (messages.drop 30).take 20 = messages.drop 30 :=
      List.take_of_length_le (by rw [List.length_drop]; omega)
    rw [List.drop_zero, show (0 + 15 : Nat) = 15 from rfl,
      show (15 + 15 : Nat) = 30 from rfl, h30]
  · simp [List.length_take, List.length_drop, h]

/-- Claim C1, witness: the amended theorem evaluated on `List.range 45`. -/
theorem C1_chunk_boundaries_witness :
    (List.range 45).length = 45 ∧
    (chunk_messages (List.range 45) 20 5 =
      .ok [(List.range 45).take 20, ((List.range 45).drop 15).take 20,
        (List.range 45).drop 30] ∧
    [((List.range 45).take 20).length, (((List.range 45).drop 15).take 20).length,
      ((List.range 45).drop 30).length] = [20, 20, 15]) :=
  ⟨rfl, C1_chunk_boundaries (List.range 45) (by decide)⟩

/-! ## Claim C2 -/

/-- Claim C2: for `overlap < chunk_size`, `chunk_messages` succeeds; every
input position is covered by some chunk; adjacent chunks share a block of
at least `overlap` elements (a suffix of the earlier chunk that is a
prefix of the later one); and a batch of at most `chunk_size` messages
yields the single chunk `[messages]`. -/
theorem C2_chunk_cover_overlap {α : Type} (messages : List α)
    (chunk_size overlap : Nat) (hov : overlap < chunk_size) :
    ∃ chunks : List (List α),
      chunk_messages messages chunk_size overlap = Except.ok chunks ∧
      (∀ k (hk : k < messages.length), ∃ c ∈ chunks, messages[k] ∈ c) ∧
      (∀ j cj cj1, chunks[j]? = some cj → chunks[j + 1]? = some cj1 →
        ∃ s : List α, overlap ≤ s.length ∧ s <:+ cj ∧ s <+: cj1) ∧
      (messages.length ≤ chunk_size → chunks = [messages]) := by
  by_cases hsmall : messages.length ≤ chunk_size
  · refine ⟨[messages], ?_, ?_, ?_, fun _ => rfl⟩
    · unfold chunk_messages; rw [if_pos hsmall]
    · intro k hk; exact ⟨messages, List.mem_singleton_self _, List.getElem_mem hk⟩
    · intro j cj cj1 hcj hcj1
      rcases j with _ | j' <;> simp at hcj1
  · refine ⟨chunkLoop messages chunk_size (chunk_size - overlap)
      messages.length 0, ?_, ?_, ?_, fun h => absurd h hsmall⟩
    · unfold chunk_messages
      rw [if_neg hsmall, if_neg (by omega), if_neg (by omega)]
    · intro k hk
      exact chunkLoop_cover messages chunk_size (chunk_size - overlap)
        (by omega) (by omega) messages.length 0 k hk (by omega) (by omega)
    · intro j cj cj1 hcj hcj1
      obtain ⟨s, h1, h2, h3⟩ := chunkLoop_adjacent messages chunk_size
        (chunk_size - overlap) (by omega) (by omega) messages.length 0 j
        (by omega) cj cj1 hcj hcj1
      exact ⟨s, by omega, h2, h3⟩

/-- Claim C2, witness: the theorem evaluated at `List.range 5`,
`chunk_size = 2`, `overlap = 1`. -/
theorem C2_chunk_cover_overlap_witness :
    1 < 2 ∧
    ∃ chunks : List (List Nat),
      chunk_messages (List.range 5) 2 1 = Except.ok chunks ∧
      (∀ k (hk : k < (List.range 5).length), ∃ c ∈ chunks, (List.range 5)[k] ∈ c) ∧
      (∀ j cj cj1, chunks[j]? = some cj → chunks[j + 1]? = some cj1 →
        ∃ s : List Nat, 1 ≤ s.length ∧ s <:+ cj ∧ s <+: cj1) ∧
      ((List.range 5).length ≤ 2 → chunks = [List.range 5]) :=
  ⟨by decide, C2_chunk_cover_overlap (List.range 5) 2 1 (by decide)⟩

/-! ## Claim C3 -/

/-- Claim C3, counterexample: with `overlap = 21 > chunk_size = 20` and 21
messages, `chunk_messages` does NOT reject the configuration with an
error — it silently returns the empty chunk list (`range(0, 21, -1)` is
empty). -/
theorem C3_no_config_error_counterexample :
    20 < 21 ∧ chunk_messages (List.range 21) 20 21 = .ok [] :=
  ⟨by decide, rfl⟩

/-- Claim C3 (amended): there is no eager configuration check.  With
`overlap > chunk_size` (and more messages than `chunk_size`) the chunk
list is silently empty, so the analyze pass performs zero extraction
calls; with `overlap = chunk_size` the `range` call raises a `ValueError`
(not a dedicated configuration error, and only when chunking runs); with
at most `chunk_size` messages the overlap is never even examined.  An
empty chunk list makes `analyzeGo` return without consulting the LLM
oracle. -/
theorem C3_overlap_ge_chunk_size {α : Type} (messages : List α)
    (chunk_size overlap : Nat) :
    (chunk_size < overlap → chunk_size < messages.length →
      chunk_messages messages chunk_size overlap = .ok []) ∧
    (overlap = chunk_size → chunk_size < messages.length →
      chunk_messages messages chunk_size overlap =
        .error "ValueError: range() arg 3 must not be zero") ∧
    (messages.length ≤ chunk_size →
      chunk_messages messages chunk_size overlap = .ok [messages]) ∧
    (∀ (chat_id : Int) (oracle : Nat → Except String AnalysisResult)
      (i : Nat) (st : AnalyzeState), analyzeGo chat_id oracle i st [] = .ok st) := by
  refine ⟨?_, ?_, ?_, fun _ _ _ _ => rfl⟩
  · intro h1 h2
    unfold chunk_messages
    rw [if_neg (by omega), if_neg (by omega), if_pos h1]
  · intro h1 h2
    unfold chunk_messages
    rw [if_neg (by omega), if_pos h1]
  · intro h1
    unfold chunk_messages
    rw [if_pos h1]

/-- Claim C3, witness: the amended theorem's first branch evaluated at 21
messages, `chunk_size = 20`, `overlap = 21`. -/
theorem C3_overlap_ge_chunk_size_witness :
    20 < 21 ∧ 20 < (List.range 21).length ∧
    chunk_messages (List.range 21) 20 21 = .ok [] :=
  ⟨by decide, by decide,
    (C3_overlap_ge_chunk_size (List.range 21) 20 21).1 (by decide) (by decide)⟩

/-! ## Claim C4 -/

/-- Unfolding of one iteration of `call_llm_loop`. -/
theorem call_llm_loop_succ (oracle : Nat → HttpOutcome)
    (max_retries fuel attempt : Nat) (sleeps : List Nat) :
    call_llm_loop oracle max_retries (fuel + 1) attempt sleeps =
      match oracle attempt with
      | .success body => .ok body sleeps
      | e =>
        if isCaughtByCallLlm e then
          if attempt = max_retries - 1 then .raised e sleeps
          else call_llm_loop oracle max_retries fuel (attempt + 1)
            (sleeps ++ [2 ^ attempt])
        else .raised e sleeps := rfl

/-- Full characterization of a three-attempt `call_llm` run. -/
theorem call_llm_three_char (oracle : Nat → HttpOutcome) :
    call_llm oracle 3 =
      match oracle 0 with
      | .success b => .ok b []
      | e0 =>
        if isCaughtByCallLlm e0 then
          match oracle 1 with
          | .success b => .ok b [1]
          | e1 =>
            if isCaughtByCallLlm e1 then
              match oracle 2 with
              | .success b => .ok b [1, 2]
              | e2 => .raised e2 [1, 2]
            else .raised e1 [1]
        else .raised e0 [] := by
  show call_llm_loop oracle 3 3 0 [] = _
  rw [show (3 : Nat) = 2 + 1 from rfl, call_llm_loop_succ]
  cases h0 : oracle 0 <;> simp only [isCaughtByCallLlm, if_true, if_false,
    reduceIte, call_llm_loop_succ] <;>
    (try rfl) <;>
    (cases h1 : oracle 1 <;> simp only [isCaughtByCallLlm, reduceIte,
      call_llm_loop_succ] <;> (try rfl) <;>
      (cases h2 : oracle 2 <;> simp only [isCaughtByCallLlm, reduceIte] <;> rfl))

/-- Claim C4, counterexample: a malformed request answered with HTTP 400
raises `httpx.HTTPStatusError`, which IS in `call_llm`'s retried exception
tuple: the call performs the backoff sleeps `2^0 = 1` and `2^1 = 2` (i.e.
it retries twice) before re-raising — refuting "does not retry
non-transient failures such as a 4xx response". -/
theorem C4_retries_4xx_counterexample :
    call_llm (fun _ => .statusError 400) 3 = .raised (.statusError 400) [1, 2] ∧
    (LlmResult.raised (.statusError 400) [1, 2]).sleeps ≠ [] :=
  ⟨rfl, by decide⟩

/-- Claim C4 (amended): `call_llm` with `max_retries = 3` performs at most
3 attempts with backoff `2^attempt` seconds (so the sleep list is a prefix
of `[1, 2]`); the result is always a return or a re-raise of the last
attempt's outcome (never swallowed, never a fall-through `None`); an
exception outside the caught tuple (`RemoteProtocolError`, `ConnectError`,
`ReadTimeout`, `HTTPStatusError`) propagates immediately without any
retry.  Since `HTTPStatusError` covers every non-2xx response, a 4xx
response IS retried like a transient failure. -/
theorem C4_retry_contract (oracle : Nat → HttpOutcome) :
    ((call_llm oracle 3).sleeps = [] ∨ (call_llm oracle 3).sleeps = [1] ∨
      (call_llm oracle 3).sleeps = [1, 2]) ∧
    (∀ e s, call_llm oracle 3 = .raised e s → oracle s.length = e) ∧
    (∀ b s, call_llm oracle 3 = .ok b s → oracle s.length = .success b) ∧
    (isCaughtByCallLlm (oracle 0) = false → (∀ b, oracle 0 ≠ .success b) →
      call_llm oracle 3 = .raised (oracle 0) []) ∧
    (∀ s, call_llm oracle 3 ≠ .noneReturn s) := by
  rw [call_llm_three_char]
  cases h0 : oracle 0 <;> cases h1 : oracle 1 <;> cases h2 : oracle 2 <;>
    simp_all [isCaughtByCallLlm, LlmResult.sleeps]

/-- Claim C4, witness: the retry contract evaluated on an oracle whose
first attempt hits an exception outside the caught tuple. -/
theorem C4_retry_contract_witness :
    isCaughtByCallLlm ((fun _ => HttpOutcome.otherError "KeyError") 0) = false ∧
    (∀ b, (fun _ => HttpOutcome.otherError "KeyError") 0 ≠ .success b) ∧
    call_llm (fun _ => HttpOutcome.otherError "KeyError") 3 =
      .raised ((fun _ => HttpOutcome.otherError "KeyError") 0) [] :=
  ⟨by decide, fun b => by simp,
    (C4_retry_contract (fun _ => HttpOutcome.otherError "KeyError")).2.2.2.1
      (by decide) (fun b => by simp)⟩

/-! ## Claim C9 -/

/-- Claim C9, counterexample: `page = 0` lies outside `1..total_pages`
(here `total_pages = 2`), yet `format_messages_page` does NOT return the
page-does-not-exist marker — it clamps the page to 1 and returns page 1's
listing, refuting "rather than clamping to a valid page" for pages below
the range. -/
theorem C9_low_page_clamped_counterexample :
    totalPages sampleMessages12.length 10 = 2 ∧
    format_messages_page sampleMessages12 0 10 =
      format_messages_page sampleMessages12 1 10 ∧
    format_messages_page sampleMessages12 0 10 ≠
      "Страница 0 не существует. Всего страниц: 2" := by
  refine ⟨rfl, rfl, ?_⟩
  decide

/-- Claim C9 (amended): only a page ABOVE `total_pages =
ceil(total/page_size)` yields the explicit page-does-not-exist marker
(which states `total_pages`); a page below 1 is clamped to page 1 and
served normally. -/
theorem C9_page_out_of_range (messages : List Message) (page page_size : Int) :
    (0 < page_size → 1 ≤ page → totalPages messages.length page_size < page →
      format_messages_page messages page page_size =
        "Страница " ++ toString page ++ " не существует. Всего страниц: " ++
          toString (totalPages messages.length page_size)) ∧
    (page < 1 → format_messages_page messages page page_size =
      format_messages_page messages 1 page_size) := by
  constructor
  · intro _ h1 h2
    unfold format_messages_page
    rw [if_neg (show ¬page < 1 by omega), if_pos h2]
  · intro h1
    unfold format_messages_page
    rw [if_pos h1, if_neg (show ¬(1 : Int) < 1 by omega)]

/-- Claim C9, witness: a problem with 12 linked messages queried with
`page=5`, `page_size=10` has `total_pages = 2` and returns the marker
stating it. -/
theorem C9_page_out_of_range_witness :
    (0 : Int) < 10 ∧ (1 : Int) ≤ 5 ∧ totalPages sampleMessages12.length 10 < 5 ∧
    format_messages_page sampleMessages12 5 10 =
      "Страница 5 не существует. Всего страниц: 2" := by
  refine ⟨by decide, by decide, by decide, ?_⟩
  have h := (C9_page_out_of_range sampleMessages12 5 10).1
    (by decide) (by decide) (by decide)
  rw [h]
  rfl

/-! ## Claims C8 and C10: the agent loop -/

/-- Unfolding of one iteration of `runAgentLoop`. -/
theorem runAgentLoop_succ (env : AgentEnv) (oracle : Nat → LlmToolsOutcome)
    (fuel k : Nat) (msgs : List ConvMsg) :
    runAgentLoop env oracle (fuel + 1) k msgs =
      match oracle k with
      | .failure e => .llmError ("Ошибка при обращении к LLM: " ++ e)
      | .response content tool_calls =>
        match tool_calls with
        | none => .finalAnswer (content.getD "Не удалось найти ответ.")
        | some [] => .finalAnswer (content.getD "Не удалось найти ответ.")
        | some tcs =>
          runAgentLoop env oracle fuel (k + 1)
            ((msgs ++ [ConvMsg.assistant content tool_calls]) ++
              tcs.map (fun tc => ConvMsg.tool tc.id (executeToolCall env tc))) := rfl

/-- The agent loop's behaviour depends only on the oracle's answers for
the iteration indices the loop can reach. -/
theorem runAgentLoop_congr (env : AgentEnv) (oracle oracle' : Nat → LlmToolsOutcome) :
    ∀ fuel k msgs, (∀ j, k ≤ j → j < k + fuel → oracle j = oracle' j) →
      runAgentLoop env oracle fuel k msgs = runAgentLoop env oracle' fuel k msgs := by
  intro fuel
  induction fuel with
  | zero => intro k msgs _; rfl
  | succ fuel ih =>
    intro k msgs hagree
    rw [runAgentLoop_succ, runAgentLoop_succ, hagree k (le_refl k) (by omega)]
    cases oracle' k with
    | failure e => rfl
    | response content tool_calls =>
      cases tool_calls with
      | none => rfl
      | some tcs =>
        cases tcs with
        | nil => rfl
        | cons t ts => exact ih (k + 1) _ (fun j h1 h2 => hagree j (by omega) (by omega))

/-- If the LLM requests at least one tool call on every iteration, the
agent loop runs out of fuel and returns the fixed exhaustion message. -/
theorem runAgentLoop_exhaust (env : AgentEnv) (oracle : Nat → LlmToolsOutcome)
    (halways : ∀ j, ∃ content tc tcs, oracle j = .response content (some (tc :: tcs))) :
    ∀ fuel k msgs, runAgentLoop env oracle fuel k msgs =
      .exhausted "Не удалось найти ответ за отведённое количество шагов. Попробуйте переформулировать вопрос." := by
  intro fuel
  induction fuel with
  | zero => intro k msgs; rfl
  | succ fuel ih =>
    intro k msgs
    obtain ⟨content, tc, tcs, heq⟩ := halways k
    rw [runAgentLoop_succ, heq]
    exact ih (k + 1) _

/-- Claim C8: the query agent terminates within the iteration bound on
every input — its result depends only on the first `MAX_ITERATIONS = 10`
oracle answers — and when the LLM requests tool calls on every response
(so the bound is hit without a final answer), the result is the fixed
could-not-find-an-answer message returned as a normal value (the
`AgentOutcome.exhausted` return site, not an exception). -/
theorem C8_agent_terminates (env : AgentEnv) (oracle oracle' : Nat → LlmToolsOutcome)
    (question : String) (hne : env.problems ≠ []) :
    ((∀ j, j < MAX_ITERATIONS → oracle j = oracle' j) →
      run_query_agent env oracle question = run_query_agent env oracle' question) ∧
    ((∀ j, ∃ content tc tcs, oracle j = .response content (some (tc :: tcs))) →
      run_query_agent env oracle question =
        .exhausted "Не удалось найти ответ за отведённое количество шагов. Попробуйте переформулировать вопрос.") := by
  constructor
  · intro hagree
    unfold run_query_agent
    rw [if_neg hne, if_neg hne]
    exact runAgentLoop_congr env oracle oracle' MAX_ITERATIONS 0 _
      (fun j h1 h2 => hagree j (by omega))
  · intro halways
    unfold run_query_agent
    rw [if_neg hne]
    exact runAgentLoop_exhaust env oracle halways MAX_ITERATIONS 0 _

/-- Claim C8, witness: a stub oracle that always requests a tool call
drives the agent over one problem into the exhaustion message. -/
theorem C8_agent_terminates_witness :
    sampleEnv.problems ≠ [] ∧
    (∀ j, ∃ content tc tcs,
      stubToolOracle j = LlmToolsOutcome.response content (some (tc :: tcs))) ∧
    run_query_agent sampleEnv stubToolOracle "q" =
      .exhausted "Не удалось найти ответ за отведённое количество шагов. Попробуйте переформулировать вопрос." :=
  ⟨by simp [sampleEnv], fun j => ⟨none, sampleDetailsToolCall, [], rfl⟩,
    (C8_agent_terminates sampleEnv stubToolOracle stubToolOracle
      "q" (by simp [sampleEnv])).2
      (fun j => ⟨none, sampleDetailsToolCall, [], rfl⟩)⟩

/-- Claim C10: when the LLM requests tool calls, the loop appends each
call's textual result tagged with its `tool_call_id` to the conversation
and continues with the next iteration; a tool call whose function name is
neither `get_problems_details` nor `get_problem_messages` gets the
unknown-tool marker as its result (`executeToolCall` is total — no path
raises). -/
theorem C10_unknown_tool_marker (env : AgentEnv) (oracle : Nat → LlmToolsOutcome)
    (fuel k : Nat) (msgs : List ConvMsg) (content : Option String)
    (tc : ToolCall) (tcs : List ToolCall)
    (h : oracle k = .response content (some (tc :: tcs))) :
    runAgentLoop env oracle (fuel + 1) k msgs =
      runAgentLoop env oracle fuel (k + 1)
        ((msgs ++ [ConvMsg.assistant content (some (tc :: tcs))]) ++
          (tc :: tcs).map (fun t => ConvMsg.tool t.id (executeToolCall env t))) ∧
    (∀ t : ToolCall, t.name ≠ "get_problems_details" →
      t.name ≠ "get_problem_messages" →
      executeToolCall env t = "Неизвестный tool: " ++ t.name) := by
  constructor
  · rw [runAgentLoop_succ, h]
  · intro t h1 h2
    unfold executeToolCall
    rw [if_neg h1, if_neg h2]

/-- Claim C10, witness: the unknown tool `frobnicate` is answered with the
marker text and the loop proceeds with it appended under the call's id. -/
theorem C10_unknown_tool_marker_witness :
    stubUnknownOracle 0 =
      LlmToolsOutcome.response none (some [sampleUnknownToolCall]) ∧
    runAgentLoop sampleEnv stubUnknownOracle 1 0 [] =
      runAgentLoop sampleEnv stubUnknownOracle 0 1
        (([] ++ [ConvMsg.assistant none (some [sampleUnknownToolCall])]) ++
          [sampleUnknownToolCall].map
            (fun t => ConvMsg.tool t.id (executeToolCall sampleEnv t))) ∧
    executeToolCall sampleEnv sampleUnknownToolCall =
      "Неизвестный tool: " ++ sampleUnknownToolCall.name := by
  have h := C10_unknown_tool_marker sampleEnv stubUnknownOracle
    0 0 [] none sampleUnknownToolCall [] rfl
  exact ⟨rfl, h.1, h.2 sampleUnknownToolCall (by decide) (by decide)⟩

/-! ## Store lemmas for the summarizer claims -/

/-- Linking messages leaves the problems table untouched. -/
theorem link_messages_problems (s : Store) (ids : List (Option Nat)) (pid : Nat) :
    (link_messages_to_problem s ids pid).problems = s.problems := rfl

/-- Linking messages leaves the id counter untouched. -/
theorem link_messages_nextId (s : Store) (ids : List (Option Nat)) (pid : Nat) :
    (link_messages_to_problem s ids pid).nextId = s.nextId := rfl

/-- Saving chat meta leaves the problems table untouched. -/
theorem save_chat_meta_problems (s : Store) (o : String) (d k : List String) :
    (save_chat_meta s o d k).problems = s.problems := rfl

/-- Saving chat meta leaves the id counter untouched. -/
theorem save_chat_meta_nextId (s : Store) (o : String) (d k : List String) :
    (save_chat_meta s o d k).nextId = s.nextId := rfl

/-- Problem lookup ignores the link table. -/
theorem get_problem_by_id_link (s : Store) (ids : List (Option Nat)) (pid q : Nat) :
    get_problem_by_id (link_messages_to_problem s ids pid) q =
      get_problem_by_id s q := rfl

/-- Problem lookup ignores the chat meta. -/
theorem get_problem_by_id_save_meta (s : Store) (o : String) (d k : List String)
    (q : Nat) : get_problem_by_id (save_chat_meta s o d k) q = get_problem_by_id s q := rfl

/-- `save_problem` on a problem without a truthy id is an `INSERT` with the
fresh id. -/
theorem save_problem_insert (s : Store) (p : Problem) (h : pyTruthyId p.id = false) :
    save_problem s p =
      ({ s with
          problems := s.problems ++ [{ p with id := some s.nextId }],
          nextId := s.nextId + 1 }, s.nextId) := by
  unfold save_problem
  rw [if_neg (by simp [h])]

/-- `save_problem` on a problem with a truthy id is an `UPDATE` and keeps
the id counter. -/
theorem save_problem_update_nextId (s : Store) (p : Problem)
    (h : pyTruthyId p.id = true) : (save_problem s p).1.nextId = s.nextId := by
  unfold save_problem
  rw [if_pos h]

/-- `save_problem` never removes a problem id from the table: a resolvable
id stays resolvable. -/
theorem save_problem_preserves_found (s : Store) (p : Problem) (pid : Nat)
    (h : (get_problem_by_id s pid).isSome = true) :
    (get_problem_by_id (save_problem s p).1 pid).isSome = true := by
  unfold get_problem_by_id at h ⊢
  unfold save_problem
  by_cases ht : pyTruthyId p.id = true
  · rw [if_pos ht]
    dsimp only
    rw [List.find?_isSome] at h ⊢
    obtain ⟨x, hx, hpx⟩ := h
    refine ⟨_, List.mem_map_of_mem _ hx, ?_⟩
    have hid : ((fun q : Problem =>
        if q.id = p.id then
          { q with title := p.title, short_summary := p.short_summary,
                   long_summary := p.long_summary, solution := p.solution,
                   status := p.status }
        else q) x).id = x.id := by
      dsimp only
      split <;> rfl
    rw [hid]
    exact hpx
  · rw [if_neg ht]
    dsimp only
    rw [List.find?_isSome] at h ⊢
    obtain ⟨x, hx, hpx⟩ := h
    exact ⟨x, List.mem_append_left _ hx, hpx⟩

/-- The status/solution field merge never touches the problem's id. -/
theorem applyUpdateFields_id (p : Problem) (upd : ProblemUpdate) :
    (applyUpdateFields p upd).1.id = p.id := by
  unfold applyUpdateFields
  cases upd.new_status <;> dsimp only <;> split <;> (try split) <;> rfl

/-- When neither the proposed status nor the proposed solution is a truthy
change, the field merge returns the problem unchanged with
`need_save = false`. -/
theorem applyUpdateFields_noChange (p : Problem) (upd : ProblemUpdate)
    (hs : upd.new_status = none ∨ upd.new_status = some "" ∨
      upd.new_status = some p.status)
    (hsol : upd.solution = "" ∨ upd.solution = p.solution) :
    applyUpdateFields p upd = (p, false) := by
  unfold applyUpdateFields
  have hcond : ¬(upd.solution ≠ "" ∧ upd.solution ≠ p.solution) := by
    rcases hsol with h | h <;> simp [h]
  rcases hs with h | h | h <;> rw [h] <;> dsimp only
  · rw [if_neg hcond]
  · rw [if_neg hcond, if_neg (by simp)]
  · rw [if_neg hcond, if_neg (by simp)]

/-! ## Merge-step lemmas (summarizer.py) -/

/-- Creating one new problem advances the id counter by exactly one. -/
theorem processNewProblem_nextId (c : Int) (chunk : List Message)
    (st : AnalyzeState) (np : NewProblem) :
    (processNewProblem c chunk st np).store.nextId = st.store.nextId + 1 := by
  unfold processNewProblem
  dsimp only
  rw [save_problem_insert st.store (newProblemRecord c np) rfl]
  split <;> rfl

/-- The problem created by one `new_problems[]` entry is visible: it is in
the in-memory list and resolvable in the store under the id it was
assigned. -/
theorem processNewProblem_visible_new (c : Int) (chunk : List Message)
    (st : AnalyzeState) (np : NewProblem) :
    problemVisible (processNewProblem c chunk st np) st.store.nextId := by
  unfold processNewProblem problemVisible
  dsimp only
  rw [save_problem_insert st.store (newProblemRecord c np) rfl]
  dsimp only
  constructor
  · exact ⟨_, List.mem_append_right _ (List.mem_singleton_self _), rfl⟩
  · have hcore : (get_problem_by_id
        { st.store with
            problems := st.store.problems ++
              [{ id := some st.store.nextId, chat_id := c, title := np.title,
                 short_summary := np.short_summary, long_summary := np.long_summary,
                 solution := np.solution, status := np.status.getD "unsolved" }],
            nextId := st.store.nextId + 1 } st.store.nextId).isSome = true := by
      unfold get_problem_by_id
      rw [List.find?_isSome]
      exact ⟨_, List.mem_append_right _ (List.mem_singleton_self _), by simp⟩
    split
    · rw [get_problem_by_id_link]; exact hcore
    · exact hcore

/-- Creating a new problem keeps every previously visible problem
visible. -/
theorem processNewProblem_visible_mono (c : Int) (chunk : List Message)
    (st : AnalyzeState) (np : NewProblem) (pid : Nat)
    (h : problemVisible st pid) :
    problemVisible (processNewProblem c chunk st np) pid := by
  obtain ⟨⟨p, hp, hpid⟩, hfound⟩ := h
  unfold processNewProblem problemVisible
  dsimp only
  rw [save_problem_insert st.store (newProblemRecord c np) rfl]
  dsimp only
  have hcore : ∀ q : Problem,
      (get_problem_by_id { st.store with
          problems := st.store.problems ++ [q],
          nextId := st.store.nextId + 1 } pid).isSome = true := by
    intro q
    unfold get_problem_by_id at hfound ⊢
    rw [List.find?_isSome] at hfound ⊢
    obtain ⟨x, hx, hpx⟩ := hfound
    exact ⟨x, List.mem_append_left _ hx, hpx⟩
  constructor
  · exact ⟨p, List.mem_append_left _ hp, hpid⟩
  · split
    · rw [get_problem_by_id_link]; exact hcore _
    · exact hcore _

/-- The `new_problems[]` fold advances the id counter by the number of
entries. -/
theorem foldl_newProblems_nextId (c : Int) (chunk : List Message) :
    ∀ (l : List NewProblem) (st : AnalyzeState),
      (l.foldl (processNewProblem c chunk) st).store.nextId =
        st.store.nextId + l.length := by
  intro l
  induction l with
  | nil => intro st; simp
  | cons np l ih =>
    intro st
    rw [List.foldl_cons, ih, processNewProblem_nextId, List.length_cons]
    omega

/-- The `new_problems[]` fold keeps previously visible problems visible. -/
theorem foldl_newProblems_visible_mono (c : Int) (chunk : List Message) :
    ∀ (l : List NewProblem) (st : AnalyzeState) (pid : Nat),
      problemVisible st pid →
      problemVisible (l.foldl (processNewProblem c chunk) st) pid := by
  intro l
  induction l with
  | nil => intro st pid h; exact h
  | cons np l ih =>
    intro st pid h
    rw [List.foldl_cons]
    exact ih _ pid (processNewProblem_visible_mono c chunk st np pid h)

/-- Every id assigned during the `new_problems[]` fold is visible
afterwards. -/
theorem foldl_newProblems_visible (c : Int) (chunk : List Message) :
    ∀ (l : List NewProblem) (st : AnalyzeState) (pid : Nat),
      st.store.nextId ≤ pid → pid < st.store.nextId + l.length →
      problemVisible (l.foldl (processNewProblem c chunk) st) pid := by
  intro l
  induction l with
  | nil => intro st pid h1 h2; simp at h2; omega
  | cons np l ih =>
    intro st pid h1 h2
    rw [List.foldl_cons]
    by_cases hp : pid = st.store.nextId
    · subst hp
      exact foldl_newProblems_visible_mono c chunk l _ _
        (processNewProblem_visible_new c chunk st np)
    · apply ih
      · rw [processNewProblem_nextId]; omega
      · rw [processNewProblem_nextId]
        rw [List.length_cons] at h2
        omega

/-- A `problem_updates[]` entry never touches the in-memory
`existing_problems` list. -/
theorem processUpdate_existing (chunk : List Message) (st : AnalyzeState)
    (upd : ProblemUpdate) :
    (processUpdate chunk st upd).existing_problems = st.existing_problems := by
  unfold processUpdate
  split
  · rfl
  · dsimp only
    split <;> rfl

/-- A `problem_updates[]` entry never advances the id counter (its save is
always an `UPDATE` of a resolved, truthy id). -/
theorem processUpdate_nextId (chunk : List Message) (st : AnalyzeState)
    (upd : ProblemUpdate) :
    (processUpdate chunk st upd).store.nextId = st.store.nextId := by
  unfold processUpdate
  split
  · rfl
  · rename_i hTruthy
    dsimp only
    split
    · rfl
    · rename_i problem hfind
      dsimp only
      unfold get_problem_by_id at hfind
      have hid : problem.id = some (upd.problem_id.getD 0) := by
        have hbeq := List.find?_some hfind
        exact eq_of_beq hbeq
      have hpid0 : upd.problem_id.getD 0 ≠ 0 := by
        cases hup : upd.problem_id with
        | none => rw [hup] at hTruthy; simp [pyTruthyId] at hTruthy
        | some n =>
          rw [hup] at hTruthy
          cases n with
          | zero => simp [pyTruthyId] at hTruthy
          | succ m => simp
      have htr : pyTruthyId (applyUpdateFields problem upd).1.id = true := by
        rw [applyUpdateFields_id, hid]
        simp [pyTruthyId, hpid0]
      split
      · rw [link_messages_nextId]
        split
        · rw [save_problem_update_nextId _ _ htr]
        · rfl
      · split
        · rw [save_problem_update_nextId _ _ htr]
        · rfl

/-- A `problem_updates[]` entry keeps every resolvable problem id
resolvable. -/
theorem processUpdate_store_found (chunk : List Message) (st : AnalyzeState)
    (upd : ProblemUpdate) (pid : Nat)
    (h : (get_problem_by_id st.store pid).isSome = true) :
    (get_problem_by_id (processUpdate chunk st upd).store pid).isSome = true := by
  unfold processUpdate
  split
  · exact h
  · dsimp only
    split
    · exact h
    · dsimp only
      split
      · rw [get_problem_by_id_link]
        split
        · exact save_problem_preserves_found _ _ _ h
        · exact h
      · split
        · exact save_problem_preserves_found _ _ _ h
        · exact h

/-- A `problem_updates[]` entry keeps previously visible problems
visible. -/
theorem processUpdate_visible_mono (chunk : List Message) (st : AnalyzeState)
    (upd : ProblemUpdate) (pid : Nat) (h : problemVisible st pid) :
    problemVisible (processUpdate chunk st upd) pid := by
  constructor
  · rw [processUpdate_existing]; exact h.1
  · exact processUpdate_store_found chunk st upd pid h.2

/-- The `problem_updates[]` fold never advances the id counter. -/
theorem foldl_updates_nextId (chunk : List Message) :
    ∀ (l : List ProblemUpdate) (st : AnalyzeState),
      (l.foldl (processUpdate chunk) st).store.nextId = st.store.nextId := by
  intro l
  induction l with
  | nil => intro st; rfl
  | cons upd l ih => intro st; rw [List.foldl_cons, ih, processUpdate_nextId]

/-- The `problem_updates[]` fold keeps visible problems visible. -/
theorem foldl_updates_visible_mono (chunk : List Message) :
    ∀ (l : List ProblemUpdate) (st : AnalyzeState) (pid : Nat),
      problemVisible st pid →
      problemVisible (l.foldl (processUpdate chunk) st) pid := by
  intro l
  induction l with
  | nil => intro st pid h; exact h
  | cons upd l ih =>
    intro st pid h
    rw [List.foldl_cons]
    exact ih _ pid (processUpdate_visible_mono chunk st upd pid h)

/-- One chunk's merge advances the id counter by exactly the number of
`new_problems[]` entries. -/
theorem processChunk_nextId (c : Int) (st : AnalyzeState) (chunk : List Message)
    (res : AnalysisResult) :
    (processChunk c st chunk res).store.nextId =
      st.store.nextId + res.new_problems.length := by
  unfold processChunk
  dsimp only
  rw [save_chat_meta_nextId, foldl_updates_nextId, foldl_newProblems_nextId]

/-- Every problem id assigned during one chunk's merge is visible in the
state handed to the next chunk. -/
theorem processChunk_visible (c : Int) (st : AnalyzeState) (chunk : List Message)
    (res : AnalysisResult) (pid : Nat) (h1 : st.store.nextId ≤ pid)
    (h2 : pid < st.store.nextId + res.new_problems.length) :
    problemVisible (processChunk c st chunk res) pid := by
  unfold processChunk
  dsimp only
  have hv := foldl_newProblems_visible c chunk res.new_problems st pid h1 h2
  have hv2 := foldl_updates_visible_mono chunk res.problem_updates _ pid hv
  exact ⟨hv2.1, by rw [get_problem_by_id_save_meta]; exact hv2.2⟩

/-! ## Claim C7 -/

/-- Claim C7: processing chunk `i` hands exactly
`processChunk chat_id st chunk res` to chunk `i+1`'s iteration, and every
problem created while merging chunk `i` (every id assigned in it) is then
visible: present in the `existing_problems` list from which chunk `i+1`'s
problem context is rendered, and resolvable by `get_problem_by_id` during
chunk `i+1`'s merge. -/
theorem C7_new_problems_visible_next_chunk (chat_id : Int)
    (oracle : Nat → Except String AnalysisResult) (i : Nat) (st : AnalyzeState)
    (chunk : List Message) (rest : List (List Message)) (res : AnalysisResult)
    (hres : oracle i = .ok res) :
    analyzeGo chat_id oracle i st (chunk :: rest) =
      analyzeGo chat_id oracle (i + 1) (processChunk chat_id st chunk res) rest ∧
    ∀ pid, st.store.nextId ≤ pid →
      pid < (processChunk chat_id st chunk res).store.nextId →
      problemVisible (processChunk chat_id st chunk res) pid := by
  constructor
  · rw [show analyzeGo chat_id oracle i st (chunk :: rest) =
        match oracle i with
        | .error e => .error e
        | .ok res => analyzeGo chat_id oracle (i + 1)
            (processChunk chat_id st chunk res) rest from rfl, hres]
  · intro pid h1 h2
    rw [processChunk_nextId] at h2
    exact processChunk_visible chat_id st chunk res pid h1 h2

/-- Claim C7, witness: a chunk whose extraction result creates one new
problem makes the assigned id (2, in `sampleAnalyzeState`) visible to the
next chunk. -/
theorem C7_new_problems_visible_next_chunk_witness :
    (fun _ : Nat => (Except.ok { new_problems := [{ title := "t2" }] } :
      Except String AnalysisResult)) 0 =
      .ok { new_problems := [{ title := "t2" }] } ∧
    sampleAnalyzeState.store.nextId ≤ 2 ∧
    2 < (processChunk 7 sampleAnalyzeState []
      { new_problems := [{ title := "t2" }] }).store.nextId ∧
    problemVisible (processChunk 7 sampleAnalyzeState []
      { new_problems := [{ title := "t2" }] }) 2 := by
  refine ⟨rfl, by decide, by decide, ?_⟩
  exact (C7_new_problems_visible_next_chunk 7
    (fun _ => .ok { new_problems := [{ title := "t2" }] }) 0 sampleAnalyzeState
    [] [] { new_problems := [{ title := "t2" }] } rfl).2 2 (by decide) (by decide)

/-! ## Claim C5 -/

/-- Claim C5: merging one `problem_update` entry: a falsy or unresolvable
target id is skipped silently (the state — counters included — is
unchanged); on a resolved target the `updated_problems` counter grows by
at most one even when both status and solution change, and when neither
the proposed status nor the proposed solution differs truthily from the
current values, nothing is saved and the counter is unchanged. -/
theorem C5_problem_update_merge (chunk : List Message) (st : AnalyzeState)
    (upd : ProblemUpdate) :
    (pyTruthyId upd.problem_id = false → processUpdate chunk st upd = st) ∧
    (∀ pid, upd.problem_id = some pid →
      get_problem_by_id st.store pid = none → processUpdate chunk st upd = st) ∧
    (∀ pid p, upd.problem_id = some pid → pyTruthyId upd.problem_id = true →
      get_problem_by_id st.store pid = some p →
      ((processUpdate chunk st upd).upd_count = st.upd_count ∨
        (processUpdate chunk st upd).upd_count = st.upd_count + 1) ∧
      ((upd.new_status = none ∨ upd.new_status = some "" ∨
          upd.new_status = some p.status) →
        (upd.solution = "" ∨ upd.solution = p.solution) →
        (processUpdate chunk st upd).upd_count = st.upd_count ∧
        (processUpdate chunk st upd).store.problems = st.store.problems)) := by
  refine ⟨?_, ?_, ?_⟩
  · intro h
    unfold processUpdate
    rw [if_pos h]
  · intro pid hp hnone
    unfold processUpdate
    by_cases ht : pyTruthyId upd.problem_id = false
    · rw [if_pos ht]
    · rw [if_neg ht]
      dsimp only
      rw [hp, Option.getD_some, hnone]
  · intro pid p hp ht hfind
    unfold processUpdate
    rw [if_neg (by simp [ht]), hp]
    dsimp only
    rw [Option.getD_some, hfind]
    dsimp only
    constructor
    · by_cases hsc : (applyUpdateFields p upd).2 = true
      · right; rw [if_pos hsc]
      · left; rw [if_neg hsc]
    · intro hs hsol
      have hno := applyUpdateFields_noChange p upd hs hsol
      rw [hno]
      constructor
      · simp
      · simp only [Bool.false_eq_true, if_false]
        split
        · rw [link_messages_problems]
        · rfl

/-- Claim C5, witness: an update repeating the current status and solution
of the resolved problem 1 leaves the counter and the problems table
unchanged. -/
theorem C5_problem_update_merge_witness :
    sampleUpdate.problem_id = some 1 ∧
    pyTruthyId sampleUpdate.problem_id = true ∧
    get_problem_by_id sampleStore 1 = some sampleProblem ∧
    (sampleUpdate.new_status = none ∨ sampleUpdate.new_status = some "" ∨
      sampleUpdate.new_status = some sampleProblem.status) ∧
    (sampleUpdate.solution = "" ∨ sampleUpdate.solution = sampleProblem.solution) ∧
    (processUpdate [] sampleAnalyzeState sampleUpdate).upd_count =
      sampleAnalyzeState.upd_count ∧
    (processUpdate [] sampleAnalyzeState sampleUpdate).store.problems =
      sampleAnalyzeState.store.problems := by
  have h := ((C5_problem_update_merge [] sampleAnalyzeState sampleUpdate).2.2
    1 sampleProblem rfl (by decide) rfl).2
    (by right; right; rfl) (by left; rfl)
  exact ⟨rfl, by decide, rfl, by right; right; rfl, by left; rfl, h.1, h.2⟩

/-! ## Claim C6 -/

/-- With a non-empty message batch, `chunk_messages` at the `analyze`
configuration (`CHUNK_SIZE = 40`, `overlap = 5`) yields at least one
chunk. -/
theorem chunk_messages_cons_of_ne_nil (msgs : List Message) (_h : msgs ≠ []) :
    ∃ c cs, chunk_messages msgs CHUNK_SIZE 5 = .ok (c :: cs) := by
  by_cases h1 : msgs.length ≤ CHUNK_SIZE
  · exact ⟨msgs, [], by unfold chunk_messages; rw [if_pos h1]⟩
  · unfold chunk_messages
    rw [if_neg h1, if_neg (by decide), if_neg (by decide)]
    obtain ⟨f, hf⟩ : ∃ f, msgs.length = f + 1 := ⟨msgs.length - 1, by omega⟩
    rw [hf, chunkLoop_succ, if_pos (by omega), if_neg (by omega)]
    exact ⟨_, _, rfl⟩

/-- Claim C6, counterexample: when the gateway exhausts its retries inside
`run_query_agent`, the exception is caught and converted into the normal
string return `"Ошибка при обращении к LLM: ..."` (the `llmError` return
site) — it is NOT re-raised to the caller, refuting the claim for
`run_query_agent`. -/
theorem C6_agent_error_string_counterexample :
    run_query_agent sampleEnv stubFailOracle "q" =
      .llmError ("Ошибка при обращении к LLM: " ++ "connection error") := rfl

/-- Claim C6 (amended): a gateway failure surfaces differently in the two
entry points: `analyze_and_update` propagates it as a raised error, while
`run_query_agent` catches every exception from its LLM call and returns
the error message as a normal string value. -/
theorem C6_gateway_failure_surfacing :
    (∀ (env : AgentEnv) (oracle : Nat → LlmToolsOutcome) (q e : String),
      env.problems ≠ [] → oracle 0 = .failure e →
      run_query_agent env oracle q =
        .llmError ("Ошибка при обращении к LLM: " ++ e)) ∧
    (∀ (oracle : Nat → Except String AnalysisResult) (store : Store)
      (chat_id : Int) (msgs : List Message) (e : String),
      msgs ≠ [] → oracle 0 = .error e →
      analyze_and_update oracle store chat_id msgs = .error e) := by
  constructor
  · intro env oracle q e hne h0
    unfold run_query_agent
    rw [if_neg hne, show MAX_ITERATIONS = 9 + 1 from rfl, runAgentLoop_succ, h0]
  · intro oracle store chat_id msgs e hne h0
    obtain ⟨c, cs, hck⟩ := chunk_messages_cons_of_ne_nil msgs hne
    unfold analyze_and_update
    rw [if_neg hne, hck]
    have hgo : analyzeGo chat_id oracle 0
        { store := store, existing_problems := get_problems_by_chat store chat_id,
          new_count := 0, upd_count := 0 } (c :: cs) = .error e := by
      rw [show analyzeGo chat_id oracle 0
          { store := store, existing_problems := get_problems_by_chat store chat_id,
            new_count := 0, upd_count := 0 } (c :: cs) =
          match oracle 0 with
          | .error e => .error e
          | .ok res => analyzeGo chat_id oracle 1 (processChunk chat_id
              { store := store,
                existing_problems := get_problems_by_chat store chat_id,
                new_count := 0, upd_count := 0 } c res) cs from rfl, h0]
    dsimp only
    rw [hgo]

/-- Claim C6, witness: the amended theorem evaluated on both entry points
with stub oracles that always fail. -/
theorem C6_gateway_failure_surfacing_witness :
    sampleEnv.problems ≠ [] ∧ stubFailOracle 0 = .failure "connection error" ∧
    run_query_agent sampleEnv stubFailOracle "q" =
      .llmError ("Ошибка при обращении к LLM: " ++ "connection error") ∧
    sampleMessages12 ≠ [] ∧
    stubAnalysisFailOracle 0 = .error "connection error" ∧
    analyze_and_update stubAnalysisFailOracle sampleStore 7 sampleMessages12 =
      .error "connection error" := by
  refine ⟨by simp [sampleEnv], rfl, ?_, by decide, rfl, ?_⟩
  · exact C6_gateway_failure_surfacing.1 sampleEnv stubFailOracle "q"
      "connection error" (by simp [sampleEnv]) rfl
  · exact C6_gateway_failure_surfacing.2 stubAnalysisFailOracle sampleStore 7
      sampleMessages12 "connection error" (by decide) rfl
